import Mathlib

/-!
Verification of the Saved-Reddit archiver pipeline.

This file gives a shallow embedding of the core functions of the repository,
translated from the Python sources:

* `src/DOWNLOADERS/Post Saver/script.py` — `request_with_backoff`,
  `extract_comments`, `pick_best_from_mpd`, `classify_media_kind`,
  `download_video`;
* `src/SCRIPTS/jsonDownloader.py` — its own `request_with_backoff` and
  `extract_comments` variants.

Python's dynamically-typed JSON values are modelled by structured Lean types
that cover exactly the shapes the code distinguishes (missing key, JSON
null and Python `None` coincide and are modelled by `Option.none`; falsy
empty strings are noted where the code relies on truthiness).  Mutable
state (the shared comment budget, the `collected` accumulator, the running
best-representation pair) is threaded explicitly.  Network, filesystem,
subprocess and random-jitter effects are supplied as explicit environment
parameters.
-/

/-! ## Comment tree normalizer (`extract_comments`, both implementations)

The raw comment fields that both `extract_comments` implementations read
from a `t1` node's `data` dict via `data.get(...)`.  A missing key and a
JSON `null` both become Python `None`, modelled as `none`.  `score` and
`created_utc` are numbers in the payload; they are carried opaquely, so an
`Option Int` model is faithful for everything the walker does with them
(it only copies them). -/
structure CFields where
  id : Option String
  author : Option String
  author_fullname : Option String
  body : Option String
  body_html : Option String
  score : Option Int
  created_utc : Option Int
  permalink : Option String
  is_submitter : Option Bool
  parent_id : Option String

/-- The dict literal both walkers build for one comment (script.py lines
73-85, jsonDownloader.py lines 246-258): the ten copied fields, the
permalink prefixed with the site origin, and a `replies` list. -/
inductive Item : Type where
  | mk : (id author author_fullname body body_html : Option String) →
      (score created_utc : Option Int) → (permalink : String) →
      (is_submitter : Option Bool) → (parent_id : Option String) →
      (replies : List Item) → Item

/-- A node of the raw listing tree as the walkers see it:
* `nonDict` — any value that fails `isinstance(node, dict)`;
* `t1NoRep f b` — a dict with `kind == "t1"` whose `data.replies` is not a
  dict: `b = false` when the key is missing, `b = true` when it is the
  (falsy) empty string the API uses for "no replies";
* `t1Rep f children` — a `t1` dict whose `replies` is a dict; `children`
  is `replies["data"]["children"]` (empty when `data`/`children` are
  missing, which also covers the falsy `{}` case);
* `rListing children` — a dict with `kind == "Listing"` and
  `data.children`;
* `otherKind` — a dict whose `kind` is anything else (e.g. `"more"`). -/
inductive RNode : Type where
  | nonDict : RNode
  | t1NoRep : CFields → Bool → RNode
  | t1Rep : CFields → List RNode → RNode
  | rListing : List RNode → RNode
  | otherKind : RNode

/-- Python `a or b` for an optional string `a` (None and `""` are falsy). -/
def pyOr (a : Option String) (b : String) : String :=
  match a with
  | some s => if s = "" then b else s
  | none => b

/-- The comment dict of script.py: `"permalink": "https://www.reddit.com" +
data.get("permalink", "")` (line 81). -/
def mkItemS (f : CFields) (rs : List Item) : Item :=
  .mk f.id f.author f.author_fullname f.body f.body_html f.score f.created_utc
    ("https://www.reddit.com" ++ f.permalink.getD "") f.is_submitter f.parent_id rs

/-- The comment dict of jsonDownloader.py: `"permalink":
"https://www.reddit.com" + (data.get("permalink") or "")` (line 254). -/
def mkItemJ (f : CFields) (rs : List Item) : Item :=
  .mk f.id f.author f.author_fullname f.body f.body_html f.score f.created_utc
    ("https://www.reddit.com" ++ pyOr f.permalink "") f.is_submitter f.parent_id rs

/-!
`walkS`/`walkRepS`/`walkTopS` embed the closure `walk` of script.py's
`extract_comments` (lines 65-102).  The mutable one-element list
`remaining` and the outer accumulator `collected` are threaded through
every call; `walk`'s return value is the `Option Item`.  `walkRepS` is the
`for ch in children` loop of the `t1` branch (appending produced children
to the item's `replies`), `walkTopS` the loop of the `Listing` branch
(appending produced children to `collected`).
-/
mutual
def walkS (maxD : Int) : RNode → Int → Int → List Item → Option Item × Int × List Item
  | node, depth, remaining, collected =>
    if remaining ≤ 0 ∨ depth > maxD then (none, remaining, collected)
    else
      match node with
      | .nonDict => (none, remaining, collected)
      | .t1NoRep f _ => (some (mkItemS f []), remaining - 1, collected)
      | .t1Rep f children =>
        let r := walkRepS maxD children (depth + 1) (remaining - 1) collected
        (some (mkItemS f r.1), r.2.1, r.2.2)
      | .rListing children =>
        let r := walkTopS maxD children depth remaining collected
        (none, r.1, r.2)
      | .otherKind => (none, remaining, collected)

def walkRepS (maxD : Int) : List RNode → Int → Int → List Item → List Item × Int × List Item
  | [], _, remaining, collected => ([], remaining, collected)
  | ch :: rest, depth, remaining, collected =>
    if remaining ≤ 0 then ([], remaining, collected)
    else
      let r := walkS maxD ch depth remaining collected
      let rr := walkRepS maxD rest depth r.2.1 r.2.2
      (match r.1 with
       | some it => it :: rr.1
       | none => rr.1, rr.2.1, rr.2.2)

def walkTopS (maxD : Int) : List RNode → Int → Int → List Item → Int × List Item
  | [], _, remaining, collected => (remaining, collected)
  | ch :: rest, depth, remaining, collected =>
    if remaining ≤ 0 then (remaining, collected)
    else
      let r := walkS maxD ch depth remaining collected
      let collected2 := match r.1 with
        | some it => r.2.2 ++ [it]
        | none => r.2.2
      walkTopS maxD rest depth r.2.1 collected2
end

/-- The `extract_comments` of script.py: run the walk at depth 1 with budget
`max_count` and return `collected`. -/
def extract_comments_s (root : RNode) (maxD maxCount : Int) : List Item :=
  (walkS maxD root 1 maxCount []).2.2

/-!
`walkJ`/`walkRepJ`/`walkTopJ` embed the closure `walk` of
jsonDownloader.py's `extract_comments` (lines 227-280).  The differences
from script.py are source-visible: the `t1` branch itself appends the item
to `collected` (line 267) after processing its replies; the `Listing`
branch walks its children without appending (line 274); the replies loop
skips non-dict children with `continue` (line 263).
-/
mutual
def walkJ (maxD : Int) : RNode → Int → Int → List Item → Option Item × Int × List Item
  | node, depth, remaining, collected =>
    if remaining ≤ 0 ∨ depth > maxD then (none, remaining, collected)
    else
      match node with
      | .nonDict => (none, remaining, collected)
      | .t1NoRep f _ => (some (mkItemJ f []), remaining - 1, collected ++ [mkItemJ f []])
      | .t1Rep f children =>
        let r := walkRepJ maxD children (depth + 1) (remaining - 1) collected
        (some (mkItemJ f r.1), r.2.1, r.2.2 ++ [mkItemJ f r.1])
      | .rListing children =>
        let r := walkTopJ maxD children depth remaining collected
        (none, r.1, r.2)
      | .otherKind => (none, remaining, collected)

def walkRepJ (maxD : Int) : List RNode → Int → Int → List Item → List Item × Int × List Item
  | [], _, remaining, collected => ([], remaining, collected)
  | ch :: rest, depth, remaining, collected =>
    if remaining ≤ 0 then ([], remaining, collected)
    else
      match ch with
      | .nonDict => walkRepJ maxD rest depth remaining collected
      | _ =>
        let r := walkJ maxD ch depth remaining collected
        let rr := walkRepJ maxD rest depth r.2.1 r.2.2
        (match r.1 with
         | some it => it :: rr.1
         | none => rr.1, rr.2.1, rr.2.2)

def walkTopJ (maxD : Int) : List RNode → Int → Int → List Item → Int × List Item
  | [], _, remaining, collected => (remaining, collected)
  | ch :: rest, depth, remaining, collected =>
    if remaining ≤ 0 then (remaining, collected)
    else
      let r := walkJ maxD ch depth remaining collected
      walkTopJ maxD rest depth r.2.1 r.2.2
end

/-- The `extract_comments` of jsonDownloader.py. -/
def extract_comments_j (root : RNode) (maxD maxCount : Int) : List Item :=
  (walkJ maxD root 1 maxCount []).2.2

/-! ### Output-side helpers used only to state properties -/

/-!
`itemClosure`/`itemsClosure`: all nodes of a produced comment forest,
each item together with every item transitively nested in its `replies`.
-/
mutual
def itemClosure : Item → List Item
  | .mk i a af b bh sc cu p isb pid rs =>
    .mk i a af b bh sc cu p isb pid rs :: itemsClosure rs

def itemsClosure : List Item → List Item
  | [] => []
  | x :: xs => itemClosure x ++ itemsClosure xs
end

/-- JSON values as serialized from the produced dicts. -/
inductive JOut : Type where
  | nullv : JOut
  | jstr : String → JOut
  | jint : Int → JOut
  | jbool : Bool → JOut
  | jarr : List JOut → JOut
  | jobj : List (String × JOut) → JOut

def optStrJ : Option String → JOut
  | none => .nullv
  | some s => .jstr s

def optIntJ : Option Int → JOut
  | none => .nullv
  | some n => .jint n

def optBoolJ : Option Bool → JOut
  | none => .nullv
  | some b => .jbool b

/-!
`Item.toJson`: the JSON rendering of a produced comment dict, key for key
in the order of the dict literal (script.py lines 73-85).
-/
mutual
def Item.toJson : Item → JOut
  | .mk i a af b bh sc cu p isb pid rs =>
    .jobj [("id", optStrJ i), ("author", optStrJ a),
      ("author_fullname", optStrJ af), ("body", optStrJ b),
      ("body_html", optStrJ bh), ("score", optIntJ sc),
      ("created_utc", optIntJ cu), ("permalink", .jstr p),
      ("is_submitter", optBoolJ isb), ("parent_id", optStrJ pid),
      ("replies", .jarr (itemsToJson rs))]

def itemsToJson : List Item → List JOut
  | [] => []
  | x :: xs => Item.toJson x :: itemsToJson xs
end

/-- First-match key lookup in a rendered JSON object. -/
def jlookup : List (String × JOut) → String → Option JOut
  | [], _ => none
  | (k, v) :: rest, key => if k = key then some v else jlookup rest key

/-- The value is an object whose `"replies"` entry is present and is an
array. -/
def hasRepliesArr (j : JOut) : Bool :=
  match j with
  | .jobj kvs =>
    match jlookup kvs "replies" with
    | some (.jarr _) => true
    | _ => false
  | _ => false

/-- A comment node with no reply children: `replies` missing, the empty
string, or a dict with no children.  Such a node is converted to an item
with an empty `replies` list. -/
def plainItemOf : RNode → Option CFields
  | .t1NoRep f _ => some f
  | .t1Rep f [] => some f
  | _ => none

/-! ## Media classifier (`classify_media_kind`, script.py lines 144-156 and
jsonDownloader.py lines 282-294 — the two bodies are token-identical up to
`elif` keywords) -/

/-- Python `s.startswith(p)`, spelled out over the character lists. -/
def listStarts : List Char → List Char → Bool
  | _, [] => true
  | [], _ :: _ => false
  | c :: cs, d :: ds => c = d && listStarts cs ds

/-- Python `s.startswith(p)`. -/
def strStarts (s p : String) : Bool := listStarts s.data p.data

/-- Whether `needle` occurs somewhere in `hay` (Python `needle in hay`). -/
def listHas (needle : List Char) : List Char → Bool
  | [] => needle.isEmpty
  | c :: t => listStarts (c :: t) needle || listHas needle t

/-- Python `needle in hay` on strings. -/
def strContains (hay needle : String) : Bool := listHas needle.data hay.data

/-- Python `s.lower()` (the strings it is applied to — URLs, domains,
post hints — are ASCII, where `Char.toLower` agrees with Python). -/
def strLower (s : String) : String := String.mk (s.data.map Char.toLower)

/-- Python truthiness of an optional string (`None` and `""` are falsy). -/
def strT (s : Option String) : Bool :=
  match s with
  | some s => s ≠ ""
  | none => false

/-- The `reddit_video` payload the video acquirer reads.  `dash_url` /
`fallback_url` are `rv.get(...)` results; `none` covers a missing key and
a JSON null. -/
structure RedditVideo where
  dash_url : Option String
  fallback_url : Option String

/-- A truthy `secure_media`/`media` dict.  `reddit_video = none` covers a
missing key, a null and a falsy `{}` value (the code only ever tests the
payload for truthiness before using it, so those cases are
indistinguishable from absence). -/
structure MediaField where
  reddit_video : Option RedditVideo

/-- One entry of `crosspost_parent_list`. -/
structure CrossPost where
  secure_media : Option MediaField
  media : Option MediaField

/-- The post fields read by `classify_media_kind` and `download_video`.
`none` on a dict-valued field covers missing, null and falsy values;
`is_gallery`/`is_self` are the truthiness of `post.get(..., False)`;
`crosspost_parent_list = []` covers a missing/empty list. -/
structure Post where
  url_overridden_by_dest : Option String
  url : Option String
  domain : Option String
  post_hint : Option String
  title : Option String
  is_gallery : Bool
  is_self : Bool
  secure_media : Option MediaField
  media : Option MediaField
  crosspost_parent_list : List CrossPost

/-- Rule-2 guard of the classifier: native video host marker in the URL,
a `reddit_video` payload under `secure_media` or `media`, or a non-empty
crosspost parent list (script.py lines 149-152). -/
def videoCond (post : Post) : Bool :=
  strContains (strLower (pyOr post.url_overridden_by_dest (pyOr post.url ""))) "v.redd.it" ||
    (post.secure_media.bind MediaField.reddit_video).isSome ||
    (post.media.bind MediaField.reddit_video).isSome ||
    !post.crosspost_parent_list.isEmpty

/-- Rule-3 guard: `post_hint == "image"` or a known direct-image domain
(script.py line 154). -/
def imageCond (post : Post) : Bool :=
  strLower (pyOr post.post_hint "") = "image" ||
    strLower (pyOr post.domain "") = "i.redd.it" ||
    strLower (pyOr post.domain "") = "i.reddituploads.com"

/-- The classifier `classify_media_kind`: a five-rule decision list, first match wins. -/
def classify_media_kind (post : Post) : String :=
  if post.is_gallery then "gallery"
  else if videoCond post then "video"
  else if imageCond post then "image"
  else if post.is_self then "self"
  else "external"

/-! ## DASH manifest selection (`pick_best_from_mpd`, script.py lines
124-142)

The XML tree is modelled after parsing: an `MPD` holds the stripped text
of the first `BaseURL` element in document order (`""` when there is
none, mirroring `base_urls[0].text.strip() if base_urls else ""`) and the
adaptation sets with their direct `Representation` children.  `urljoin`
is abstracted as an explicit `join` parameter — none of the stated
properties depend on its arithmetic. -/

/-- One `Representation` element: `bandwidth` is
`int(rep.get("bandwidth", "0"))`; `baseURL` is the stripped text of its
first `BaseURL` child, `none` when it has no `BaseURL` child (the code
then skips the representation). -/
structure RepElem where
  bandwidth : Int
  baseURL : Option String
deriving DecidableEq

structure AdaptationSet where
  mimeType : String
  representations : List RepElem
deriving DecidableEq

structure MPD where
  baseURL : String
  sets : List AdaptationSet
deriving DecidableEq

/-- Resolve a representation URL against the manifest base URL unless it
is already absolute (script.py lines 138-139). -/
def resolveURL (join : String → String → String) (base u : String) : String :=
  if base ≠ "" ∧ ¬(strStarts (strLower u) "http://" || strStarts (strLower u) "https://") then
    join base u
  else u

/-- The body of the double loop of `pick_best_from_mpd` for one
representation: skip it if it has no `BaseURL`, otherwise compare its
bandwidth against the running best of its MIME category (strict `>`,
`video/*` tested first, `audio/*` in the `elif`). -/
def pickStep (join : String → String → String) (base mime : String)
    (st : (Int × Option String) × (Int × Option String)) (rep : RepElem) :
    (Int × Option String) × (Int × Option String) :=
  match rep.baseURL with
  | none => st
  | some u0 =>
    let u := resolveURL join base u0
    if strStarts mime "video/" ∧ rep.bandwidth > st.1.1 then ((rep.bandwidth, some u), st.2)
    else if strStarts mime "audio/" ∧ rep.bandwidth > st.2.1 then (st.1, (rep.bandwidth, some u))
    else st

/-- The selector `pick_best_from_mpd`: fold the double loop from the initial bests
`(0, None)` and return the two best URLs. -/
def pick_best_from_mpd (join : String → String → String) (m : MPD) :
    Option String × Option String :=
  let st := m.sets.foldl
    (fun st aset => aset.representations.foldl (pickStep join m.baseURL aset.mimeType) st)
    ((0, none), (0, none))
  (st.1.2, st.2.2)

/-- The `(bandwidth, resolved URL)` candidates of the `video/*` category,
in document order: representations carrying a `BaseURL`, inside sets whose
MIME type starts with `video/`. -/
def videoCands (join : String → String → String) (m : MPD) : List (Int × String) :=
  m.sets.foldr
    (fun aset acc =>
      (if strStarts aset.mimeType "video/" then
        aset.representations.filterMap
          (fun rep => rep.baseURL.map (fun u => (rep.bandwidth, resolveURL join m.baseURL u)))
      else []) ++ acc) []

/-- The candidates of the `audio/*` category.  The guard mirrors the
`elif`: a MIME type that started with `video/` is never tested for
`audio/` (no real MIME type starts with both). -/
def audioCands (join : String → String → String) (m : MPD) : List (Int × String) :=
  m.sets.foldr
    (fun aset acc =>
      (if ¬strStarts aset.mimeType "video/" ∧ strStarts aset.mimeType "audio/" then
        aset.representations.filterMap
          (fun rep => rep.baseURL.map (fun u => (rep.bandwidth, resolveURL join m.baseURL u)))
      else []) ++ acc) []

/-- Specification-side selection: the first candidate (in document order)
whose bandwidth equals the running maximum, provided that maximum is
strictly positive; `(0, none)` when every candidate's bandwidth is ≤ 0. -/
def selectFirstMax : List (Int × String) → Int × Option String
  | [] => (0, none)
  | (bw, u) :: rest =>
    let r := selectFirstMax rest
    if bw ≥ r.1 ∧ bw > 0 then (bw, some u) else r

/-! ## Resilient fetcher (`request_with_backoff`, script.py lines 22-46 and
jsonDownloader.py lines 125-155)

One call of the underlying session/oauth request either raises a transport
error or yields a response; the sequence of per-attempt results is
supplied as a stream indexed by the attempt counter.  `random.uniform(0,
0.5)` is supplied as a `jitter` function of the attempt.  A `Retry-After`
header is `none` when absent, `some none` when present but not parseable
as a float, and `some (some q)` when it parses to `q` (sleep durations are
modelled as rationals).  The body of a successful response is carried as
an already-parsed `MPD` because the only body the embedded caller
(`download_video`) consumes is a DASH manifest. -/

/-- The result of one request attempt. -/
inductive Outcome : Type where
  | transportErr : Outcome
  | response : Int → Option (Option ℚ) → MPD → Outcome

/-- What `request_with_backoff` does overall: return the final response
(status and body), or raise the transport error, or raise the HTTP status
error. -/
inductive FetchResult : Type where
  | ok : Int → MPD → FetchResult
  | transportFailure : FetchResult
  | httpError : Int → FetchResult
deriving DecidableEq

/-- The retry loop of script.py's `request_with_backoff`, with the sleeps
it performs.  `fuel` only bounds the recursion; every retry happens with
`attempt < max_retries`, so `fuel = max_retries - attempt` never runs out
when the loop is entered from `request_with_backoff_s`. -/
def rwbSGo (stream : Nat → Outcome) (jitter : Nat → ℚ) (max_retries : Nat) :
    Nat → Nat → FetchResult × List ℚ
  | fuel, attempt =>
    match stream attempt with
    | .transportErr =>
      if max_retries ≤ attempt then (.transportFailure, [])
      else
        match fuel with
        | 0 => (.transportFailure, [])
        | fuel' + 1 =>
          let s := min 60 ((2 : ℚ) ^ attempt) + jitter attempt
          let r := rwbSGo stream jitter max_retries fuel' (attempt + 1)
          (r.1, s :: r.2)
    | .response status retryAfter body =>
      if status = 429 ∨ (500 ≤ status ∧ status < 600) then
        if max_retries ≤ attempt then (.httpError status, [])
        else
          match fuel with
          | 0 => (.httpError status, [])
          | fuel' + 1 =>
            let s : ℚ :=
              match retryAfter with
              | some (some q) => q
              | some none => 10
              | none => min 60 ((2 : ℚ) ^ attempt) + jitter attempt
            let r := rwbSGo stream jitter max_retries fuel' (attempt + 1)
            (r.1, s :: r.2)
      else if 400 ≤ status ∧ status < 500 then (.httpError status, [])
      else (.ok status body, [])

/-- The `request_with_backoff` of script.py: run the loop from attempt 0. -/
def request_with_backoff_s (stream : Nat → Outcome) (jitter : Nat → ℚ)
    (max_retries : Nat) : FetchResult × List ℚ :=
  rwbSGo stream jitter max_retries max_retries 0

/-- The retry loop of jsonDownloader.py's `request_with_backoff` (lines
125-155).  Differences from script.py, line-visible in the source: on a
present but unparseable `retry-after` header the `except` branch falls
back to `min(60, 2 ** attempt)` instead of 10 seconds, and the jitter is
added after the `try/except`, i.e. also on top of a parsed header value;
the non-retryable exit is `resp.raise_for_status()` (raising on every
400-599 status) followed by `return resp`. -/
def rwbJGo (stream : Nat → Outcome) (jitter : Nat → ℚ) (max_retries : Nat) :
    Nat → Nat → FetchResult × List ℚ
  | fuel, attempt =>
    match stream attempt with
    | .transportErr =>
      if max_retries ≤ attempt then (.transportFailure, [])
      else
        match fuel with
        | 0 => (.transportFailure, [])
        | fuel' + 1 =>
          let s := min 60 ((2 : ℚ) ^ attempt) + jitter attempt
          let r := rwbJGo stream jitter max_retries fuel' (attempt + 1)
          (r.1, s :: r.2)
    | .response status retryAfter body =>
      if status = 429 ∨ (500 ≤ status ∧ status < 600) then
        if max_retries ≤ attempt then (.httpError status, [])
        else
          match fuel with
          | 0 => (.httpError status, [])
          | fuel' + 1 =>
            let s : ℚ :=
              (match retryAfter with
               | some (some q) => q
               | some none => min 60 ((2 : ℚ) ^ attempt)
               | none => min 60 ((2 : ℚ) ^ attempt)) + jitter attempt
            let r := rwbJGo stream jitter max_retries fuel' (attempt + 1)
            (r.1, s :: r.2)
      else if 400 ≤ status ∧ status < 600 then (.httpError status, [])
      else (.ok status body, [])

/-- The `request_with_backoff` of jsonDownloader.py: run the loop from
attempt 0. -/
def request_with_backoff_j (stream : Nat → Outcome) (jitter : Nat → ℚ)
    (max_retries : Nat) : FetchResult × List ℚ :=
  rwbJGo stream jitter max_retries max_retries 0

/-! ## Video acquirer (`download_video`, script.py lines 185-239) -/

/-- What the acquirer can raise: an HTTP error or transport error
propagated out of `request_with_backoff`, the `RuntimeError` for a
missing FFmpeg binary, or a non-zero FFmpeg exit
(`subprocess.CalledProcessError` under `check=True`). -/
inductive DVErr : Type where
  | transport : DVErr
  | http : Int → DVErr
  | ffmpegMissing : DVErr
  | ffmpegFailed : DVErr
deriving DecidableEq

/-- The `media` dict `download_video` builds: `{"kind": "video", "files":
[...], "merged": ...}`. -/
structure MediaResult where
  kind : String
  files : List String
  merged : Option String
deriving DecidableEq

/-- The effects `download_video` consumes: a per-URL outcome stream and a
jitter source for `request_with_backoff`, `urllib.parse.urljoin` and the
`safe_name` path sanitizer abstracted as string functions (no stated
property depends on their arithmetic), and the FFmpeg probe and exit
status. -/
structure DVEnv where
  stream : String → Nat → Outcome
  jitter : Nat → ℚ
  join : String → String → String
  sanitize : String → String
  ffmpegFound : Bool
  ffmpegExitOk : Bool

/-- Locate a `reddit_video` payload: the post's `secure_media`, then its
`media`, then each crosspost parent's `secure_media` and `media`, first
hit winning (script.py lines 188-198). -/
def findRV (post : Post) : Option RedditVideo :=
  match post.secure_media.bind MediaField.reddit_video with
  | some rv => some rv
  | none =>
    match post.media.bind MediaField.reddit_video with
    | some rv => some rv
    | none => findRVCross post.crosspost_parent_list
where
  findRVCross : List CrossPost → Option RedditVideo
    | [] => none
    | p :: rest =>
      match p.secure_media.bind MediaField.reddit_video with
      | some rv => some rv
      | none =>
        match p.media.bind MediaField.reddit_video with
        | some rv => some rv
        | none => findRVCross rest

/-- Python `url.rstrip("/")`. -/
def stripTrailingSlashes (s : String) : String :=
  String.mk (s.data.reverse.dropWhile (· = '/')).reverse

/-- One `request_with_backoff` call made by `download_video` (it always
uses the script.py fetcher of its own module). -/
def fetchVia (env : DVEnv) (url : String) (mr : Nat) : FetchResult :=
  (request_with_backoff_s (env.stream url) env.jitter mr).1

/-- A `download_file` call: it streams the body through the same
`request_with_backoff`, so it succeeds or propagates the fetch error. -/
def dlCheck (env : DVEnv) (url : String) (mr : Nat) : Except DVErr Unit :=
  match fetchVia env url mr with
  | .transportFailure => .error .transport
  | .httpError s => .error (.http s)
  | .ok _ _ => .ok ()

/-- The tail of `download_video` (script.py lines 234-239): download the
`fallback_url` if it is truthy and set `merged` to the single output
path; otherwise return the media dict as it stands. -/
def fallbackStep (env : DVEnv) (fallback title base_dir : String) (mr : Nat)
    (files : List String) : Except DVErr MediaResult :=
  if fallback = "" then .ok ⟨"video", files, none⟩
  else
    match fetchVia env fallback mr with
    | .transportFailure => .error .transport
    | .httpError s => .error (.http s)
    | .ok _ _ => .ok ⟨"video", files, some (base_dir ++ "/" ++ title ++ ".mp4")⟩

/-- The DASH branch of `download_video` (script.py lines 212-232), after
the manifest body has been obtained: pick the best representations,
download whichever of the two is truthy (appending its temp path to
`files`), then merge with FFmpeg when an audio URL exists (missing FFmpeg
is fatal, the two temp files are deleted after a successful merge),
rename in place when only a video URL exists, and otherwise fall through
to the fallback tail. -/
def dashStep (env : DVEnv) (fallback title base_dir : String) (mr : Nat)
    (body : MPD) : Except DVErr MediaResult :=
  let pair := pick_best_from_mpd env.join body
  let v_path := base_dir ++ "/" ++ title ++ ".video.mp4"
  let a_path := base_dir ++ "/" ++ title ++ ".audio.mp4"
  match (if strT pair.1 then dlCheck env (pair.1.getD "") mr else .ok ()) with
  | .error e => .error e
  | .ok _ =>
    match (if strT pair.2 then dlCheck env (pair.2.getD "") mr else .ok ()) with
    | .error e => .error e
    | .ok _ =>
      let files := (if strT pair.1 then [v_path] else []) ++
        (if strT pair.2 then [a_path] else [])
      if strT pair.2 then
        if ¬env.ffmpegFound then .error .ffmpegMissing
        else if ¬env.ffmpegExitOk then .error .ffmpegFailed
        else .ok ⟨"video", files, some (base_dir ++ "/" ++ title ++ ".mp4")⟩
      else if strT pair.1 then
        .ok ⟨"video", files, some (base_dir ++ "/" ++ title ++ ".mp4")⟩
      else fallbackStep env fallback title base_dir mr files

/-- The acquirer `download_video` (script.py lines 185-239).  `dash0`/`fallback` are
the payload's `dash_url`/`fallback_url` with Python's falsy `None`/`""`
both mapped to `""`; when `dash0` is falsy, a manifest URL is synthesized
from a `v.redd.it` post URL.  When a DASH URL exists the manifest is
fetched through `request_with_backoff`; a returned 403 status would
trigger one plaintext-HTTP refetch (line 210-211) — note
`request_with_backoff` raises on every 4xx, so the `.ok` branch can only
carry a non-4xx status. -/
def download_video (env : DVEnv) (post : Post) (base_dir : String) (mr : Nat) :
    Except DVErr MediaResult :=
  let title := env.sanitize (post.title.getD "video")
  let rv := findRV post
  let dash0 := (rv.bind RedditVideo.dash_url).getD ""
  let fallback := (rv.bind RedditVideo.fallback_url).getD ""
  let url := pyOr post.url_overridden_by_dest (post.url.getD "")
  let dash :=
    if dash0 = "" then
      if strContains url "v.redd.it" then stripTrailingSlashes url ++ "/DASHPlaylist.mpd"
      else dash0
    else dash0
  if dash = "" then fallbackStep env fallback title base_dir mr []
  else
    match fetchVia env dash mr with
    | .transportFailure => .error .transport
    | .httpError s => .error (.http s)
    | .ok status body =>
      match
        (if status = 403 then fetchVia env (dash.replace "https://" "http://") mr
         else .ok status body) with
      | .transportFailure => .error .transport
      | .httpError s => .error (.http s)
      | .ok _ body2 => dashStep env fallback title base_dir mr body2

/-! ## Specification-side helpers and concrete fixtures used in the claim
statements, witnesses and counterexamples -/

/-- One comparison step of the running-best fold, on `(bandwidth, url)`
candidates of a single category (strict `>`, i.e. ties keep the earlier
best). -/
def bestStep (b : Int × Option String) (p : Int × String) : Int × Option String :=
  if p.1 > b.1 then (p.1, some p.2) else b

/-- The manifest flattened to `(mimeType, representation)` pairs in
document order. -/
def mpdPairs (m : MPD) : List (String × RepElem) :=
  m.sets.foldr (fun aset acc => aset.representations.map (fun r => (aset.mimeType, r)) ++ acc) []

/-- The video-category candidate of one `(mimeType, representation)`
pair, if any. -/
def vCandOf (join : String → String → String) (base : String)
    (p : String × RepElem) : Option (Int × String) :=
  if strStarts p.1 "video/" then
    p.2.baseURL.map (fun u => (p.2.bandwidth, resolveURL join base u))
  else none

/-- The audio-category candidate of one pair, if any (the `elif` means a
`video/*` set is never considered for audio). -/
def aCandOf (join : String → String → String) (base : String)
    (p : String × RepElem) : Option (Int × String) :=
  if ¬strStarts p.1 "video/" ∧ strStarts p.1 "audio/" then
    p.2.baseURL.map (fun u => (p.2.bandwidth, resolveURL join base u))
  else none

/-- An empty comment-field record (every `data.get` returns `None`). -/
def fEmpty : CFields := ⟨none, none, none, none, none, none, none, none, none, none⟩

/-- A populated comment-field record. -/
def fAlice : CFields :=
  ⟨some "c1", some "alice", some "t2_a", some "hi", some "<p>hi</p>", some 3,
    some 1700000000, some "/r/pics/comments/p/c/c1/", some false, some "t3_p"⟩

/-- A dummy parsed manifest body (used where a response body is never
consumed). -/
def mpdEmpty : MPD := ⟨"", []⟩

/-- A manifest whose single video representation carries a URL but
declares bandwidth 0 (the value `int(rep.get("bandwidth", "0"))` also
produces when the attribute is absent). -/
def mpdZeroBand : MPD := ⟨"", [⟨"video/mp4", [⟨0, some "https://v.redd.it/x/DASH_720.mp4"⟩]⟩]⟩

def joinId : String → String → String := fun _ u => u

def jitter0 : Nat → ℚ := fun _ => 0

def jitterHalf : Nat → ℚ := fun _ => 1 / 2

/-- A post with no reddit_video payload anywhere, no `v.redd.it` URL and
no fallback: nothing for the video acquirer to resolve. -/
def postBare : Post :=
  ⟨some "https://example.com/clip", none, some "example.com", none, some "a clip",
    false, false, none, none, []⟩

/-- An environment whose fetches never succeed (never consulted on the
paths under test) and whose FFmpeg is present and succeeds. -/
def envIdle : DVEnv := ⟨fun _ _ => .transportErr, jitter0, joinId, id, true, true⟩

def dashURL403 : String := "https://v.redd.it/abc/DASHPlaylist.mpd"

/-- A post whose `secure_media.reddit_video.dash_url` is `dashURL403`. -/
def post403 : Post :=
  ⟨none, none, none, none, some "t", false, false, some ⟨some ⟨some dashURL403, none⟩⟩, none, []⟩

/-- An environment in which the secure manifest URL answers 403 and every
other URL behaves as `g` says. -/
def env403 (g : String → Nat → Outcome) : DVEnv :=
  ⟨fun u n => if u = dashURL403 then .response 403 none mpdEmpty else g u n,
    jitter0, joinId, id, true, true⟩

/-- Attempt 0 is a 429 whose `Retry-After` header parses to 10 seconds;
attempt 1 succeeds. -/
def stream429 : Nat → Outcome := fun n =>
  if n = 0 then .response 429 (some (some 10)) mpdEmpty else .response 200 none mpdEmpty

/-- Every attempt yields a plain 404 response. -/
def stream404 : Nat → Outcome := fun _ => .response 404 none mpdEmpty

/-- A gallery post that also carries every rule-2 video signal. -/
def rvFull : RedditVideo :=
  ⟨some "https://v.redd.it/x/DASHPlaylist.mpd", some "https://v.redd.it/x/DASH_720.mp4"⟩

def postGalleryVideo : Post :=
  ⟨some "https://v.redd.it/x", none, some "v.redd.it", none, some "g", true, false,
    some ⟨some rvFull⟩, some ⟨some rvFull⟩, [⟨some ⟨some rvFull⟩, none⟩]⟩

def postVideo : Post :=
  ⟨none, none, none, none, some "v", false, false, some ⟨some rvFull⟩, none, []⟩

def postImage : Post :=
  ⟨some "https://i.redd.it/a.jpg", none, some "i.redd.it", some "image", none,
    false, false, none, none, []⟩

def postSelf : Post :=
  ⟨none, none, some "self.test", none, none, false, true, none, none, []⟩

def postExternal : Post :=
  ⟨some "https://example.com/a", none, some "example.com", none, none,
    false, false, none, none, []⟩

/-- A listing with one top-level comment that has one nested reply. -/
def nestedRoot : RNode := .rListing [.t1Rep fAlice [.t1NoRep fEmpty true]]

/-- Three top-level comments, none with replies. -/
def flatChildren : List RNode :=
  [.t1NoRep fAlice false, .t1NoRep fEmpty true, .t1Rep fEmpty []]

/-- The singleton-or-empty list an optional produced item contributes to
an accumulator. -/
def optList : Option Item → List Item
  | some it => [it]
  | none => []

/-! ## Helper lemmas -/

/-- The two implementations build identical comment dicts:
`data.get("permalink", "")` and `(data.get("permalink") or "")` agree on
every modelled permalink value. -/
theorem mkItem_eq (f : CFields) (rs : List Item) : mkItemS f rs = mkItemJ f rs := by
  unfold mkItemS mkItemJ pyOr
  cases hp : f.permalink with
  | none => rfl
  | some s =>
    by_cases hs : s = ""
    · simp [hs]
    · simp [hs]

/-- Every comment dict either walker can build renders with a `"replies"`
key holding an array. -/
theorem hasRepliesArr_toJson (it : Item) : hasRepliesArr (Item.toJson it) = true := by
  cases it
  rfl

/-! ## Claim theorems -/

/-- Claim C5: a comment node reached at a depth strictly greater than
`max_depth` is dropped whole by both walkers — nothing of its subtree is
emitted, the budget and the accumulated output are returned unchanged
(the depth guard fires before the `t1` branch can decrement the budget). -/
theorem walk_depth_pruned (maxD : Int) (node : RNode) (depth rem : Int)
    (col : List Item) (h : maxD < depth) :
    walkS maxD node depth rem col = (none, rem, col) ∧
    walkJ maxD node depth rem col = (none, rem, col) := by
  constructor
  · unfold walkS
    rw [if_pos (Or.inr h)]
  · unfold walkJ
    rw [if_pos (Or.inr h)]

/-- Witness for C5 at a concrete node, depth 3 against `max_depth = 2`. -/
theorem walk_depth_pruned_witness :
    (2 : Int) < 3 ∧ walkS 2 (.t1NoRep fEmpty false) 3 10 [] = (none, 10, []) :=
  ⟨by decide, (walk_depth_pruned 2 (.t1NoRep fEmpty false) 3 10 [] (by decide)).1⟩

/-- Claim C9: a response with a 4xx status other than 429 makes both
`request_with_backoff` implementations fail with that HTTP error at once —
no retry is consumed and no sleep happens, whatever the remaining
budget. -/
theorem rwb_4xx_immediate (stream : Nat → Outcome) (jitter : Nat → ℚ)
    (mr fuel attempt : Nat) (s : Int) (ra : Option (Option ℚ)) (b : MPD)
    (hs : stream attempt = .response s ra b) (h4 : 400 ≤ s) (h5 : s < 500)
    (h9 : s ≠ 429) :
    rwbSGo stream jitter mr fuel attempt = (.httpError s, []) ∧
    rwbJGo stream jitter mr fuel attempt = (.httpError s, []) := by
  have hcond : ¬(s = 429 ∨ (500 ≤ s ∧ s < 600)) := by omega
  constructor
  · cases fuel <;> simp [rwbSGo, hs, hcond, h4, h5]
  · cases fuel <;> simp [rwbJGo, hs, hcond, h4] <;> omega

/-- Witness for C9: a 404 on the very first attempt with a full budget of
5 retries. -/
theorem rwb_4xx_immediate_witness :
    stream404 0 = .response 404 none mpdEmpty ∧
    rwbSGo stream404 jitter0 5 5 0 = (.httpError 404, []) ∧
    rwbJGo stream404 jitter0 5 5 0 = (.httpError 404, []) :=
  ⟨rfl,
   (rwb_4xx_immediate stream404 jitter0 5 5 0 404 none mpdEmpty rfl (by decide)
     (by decide) (by decide)).1,
   (rwb_4xx_immediate stream404 jitter0 5 5 0 404 none mpdEmpty rfl (by decide)
     (by decide) (by decide)).2⟩

/-- Claim C3: the classifier is the five-rule decision list with first
match winning — `is_gallery` alone decides "gallery" whatever video
signals are present, rule 2's disjunction decides "video" only below
rule 1, and so on down to "external". -/
theorem classify_decision_list (post : Post) :
    (post.is_gallery = true → classify_media_kind post = "gallery") ∧
    (post.is_gallery = false → videoCond post = true →
      classify_media_kind post = "video") ∧
    (post.is_gallery = false → videoCond post = false → imageCond post = true →
      classify_media_kind post = "image") ∧
    (post.is_gallery = false → videoCond post = false → imageCond post = false →
      post.is_self = true → classify_media_kind post = "self") ∧
    (post.is_gallery = false → videoCond post = false → imageCond post = false →
      post.is_self = false → classify_media_kind post = "external") :=
  ⟨fun h1 => by simp [classify_media_kind, h1],
   fun h1 h2 => by simp [classify_media_kind, h1, h2],
   fun h1 h2 h3 => by simp [classify_media_kind, h1, h2, h3],
   fun h1 h2 h3 h4 => by simp [classify_media_kind, h1, h2, h3, h4],
   fun h1 h2 h3 h4 => by simp [classify_media_kind, h1, h2, h3, h4]⟩

/-- Witness for C3: one concrete post per rule; the gallery witness
carries a `reddit_video` payload in both media slots, a `v.redd.it` URL
and a crosspost parent, and still classifies as "gallery". -/
theorem classify_decision_list_witness :
    classify_media_kind postGalleryVideo = "gallery" ∧
    classify_media_kind postVideo = "video" ∧
    classify_media_kind postImage = "image" ∧
    classify_media_kind postSelf = "self" ∧
    classify_media_kind postExternal = "external" :=
  ⟨(classify_decision_list postGalleryVideo).1 rfl,
   (classify_decision_list postVideo).2.1 rfl (by decide),
   (classify_decision_list postImage).2.2.1 rfl (by decide) (by decide),
   (classify_decision_list postSelf).2.2.2.1 rfl (by decide) (by decide) rfl,
   (classify_decision_list postExternal).2.2.2.2 rfl (by decide) (by decide) rfl⟩

/-- Claim C6: every comment node either `extract_comments` produces, at
any nesting level, serializes with a `"replies"` key that is present and
holds an array — whatever the source `replies` field looked like and
whatever the bounds were (the dict literal both walkers build always
contains `"replies": []`, extended only by appends). -/
theorem extract_replies_list (root : RNode) (maxD maxC : Int) (it : Item)
    (_hmem : it ∈ itemsClosure (extract_comments_s root maxD maxC) ∨
      it ∈ itemsClosure (extract_comments_j root maxD maxC)) :
    hasRepliesArr (Item.toJson it) = true :=
  hasRepliesArr_toJson it

/-- Witness for C6 on a one-comment listing. -/
theorem extract_replies_list_witness :
    hasRepliesArr (Item.toJson (mkItemS fAlice [])) = true :=
  extract_replies_list (.rListing [.t1NoRep fAlice false]) 2 5 (mkItemS fAlice [])
    (Or.inl (List.mem_cons_self _ _))

/-- A `filterMap` whose function hits `some` on every element keeps the
length. -/
theorem length_filterMap_isSome {α β : Type} (f : α → Option β) :
    ∀ l : List α, (∀ c ∈ l, (f c).isSome) → (l.filterMap f).length = l.length := by
  intro l
  induction l with
  | nil => intro _; rfl
  | cons c t ih =>
    intro h
    have hc := h c (List.mem_cons_self c t)
    match hfc : f c with
    | none => rw [hfc] at hc; simp at hc
    | some b =>
      simp only [List.filterMap_cons, hfc, List.length_cons]
      rw [ih (fun x hx => h x (List.mem_cons_of_mem c hx))]

/-- script.py's walker on a replyless comment node with budget left:
produce its item, decrement the budget once, leave `collected` alone. -/
theorem walkS_plain (maxD : Int) (hD : 1 ≤ maxD) (c : RNode) (f : CFields)
    (hf : plainItemOf c = some f) (M : Int) (hM : 0 < M) (col : List Item) :
    walkS maxD c 1 M col = (some (mkItemS f []), M - 1, col) := by
  have hg : ¬(M ≤ 0 ∨ (1 : Int) > maxD) := by omega
  cases c with
  | nonDict => simp [plainItemOf] at hf
  | t1NoRep f' b =>
    simp only [plainItemOf, Option.some.injEq] at hf
    subst hf
    simp [walkS, hg]
  | t1Rep f' cs =>
    cases cs with
    | nil =>
      simp only [plainItemOf, Option.some.injEq] at hf
      subst hf
      simp [walkS, walkRepS, hg]
    | cons a l => simp [plainItemOf] at hf
  | rListing cs => simp [plainItemOf] at hf
  | otherKind => simp [plainItemOf] at hf

/-- jsonDownloader.py's walker on the same node: the item is additionally
self-appended to `collected`. -/
theorem walkJ_plain (maxD : Int) (hD : 1 ≤ maxD) (c : RNode) (f : CFields)
    (hf : plainItemOf c = some f) (M : Int) (hM : 0 < M) (col : List Item) :
    walkJ maxD c 1 M col = (some (mkItemS f []), M - 1, col ++ [mkItemS f []]) := by
  have hg : ¬(M ≤ 0 ∨ (1 : Int) > maxD) := by omega
  cases c with
  | nonDict => simp [plainItemOf] at hf
  | t1NoRep f' b =>
    simp only [plainItemOf, Option.some.injEq] at hf
    subst hf
    simp [walkJ, hg, mkItem_eq]
  | t1Rep f' cs =>
    cases cs with
    | nil =>
      simp only [plainItemOf, Option.some.injEq] at hf
      subst hf
      simp [walkJ, walkRepJ, hg, mkItem_eq]
    | cons a l => simp [plainItemOf] at hf
  | rListing cs => simp [plainItemOf] at hf
  | otherKind => simp [plainItemOf] at hf

/-- The `Listing` loop of script.py over replyless comments: it converts
nodes in source order until the shared budget runs out. -/
theorem walkTopS_plain (maxD : Int) (hD : 1 ≤ maxD) :
    ∀ (children : List RNode) (M : Int) (col : List Item),
      (∀ c ∈ children, (plainItemOf c).isSome) →
      walkTopS maxD children 1 M col =
        (M - ((min children.length M.toNat : Nat) : Int),
         col ++ (children.take M.toNat).filterMap
           (fun c => (plainItemOf c).map (fun f => mkItemS f []))) := by
  intro children
  induction children with
  | nil =>
    intro M col _
    simp [walkTopS]
  | cons c t ih =>
    intro M col h
    by_cases hM : M ≤ 0
    · have h0 : M.toNat = 0 := by omega
      simp [walkTopS, hM, h0]
    · have hM' : 0 < M := by omega
      obtain ⟨f, hf⟩ := Option.isSome_iff_exists.mp (h c (List.mem_cons_self c t))
      have hw := walkS_plain maxD hD c f hf M hM' col
      have hIH := ih (M - 1) (col ++ [mkItemS f []])
        (fun x hx => h x (List.mem_cons_of_mem c hx))
      have hk : M.toNat = (M - 1).toNat + 1 := by omega
      rw [hk]
      simp only [walkTopS, if_neg hM, hw, List.take_succ_cons, List.filterMap_cons, hf,
        Option.map_some, hIH]
      refine Prod.ext ?_ ?_
      · simp only [List.length_cons]
        omega
      · simp

/-- The same loop shape for jsonDownloader.py (the `Listing` branch
ignores return values; the items self-append inside `walkJ`). -/
theorem walkTopJ_plain (maxD : Int) (hD : 1 ≤ maxD) :
    ∀ (children : List RNode) (M : Int) (col : List Item),
      (∀ c ∈ children, (plainItemOf c).isSome) →
      walkTopJ maxD children 1 M col =
        (M - ((min children.length M.toNat : Nat) : Int),
         col ++ (children.take M.toNat).filterMap
           (fun c => (plainItemOf c).map (fun f => mkItemS f []))) := by
  intro children
  induction children with
  | nil =>
    intro M col _
    simp [walkTopJ]
  | cons c t ih =>
    intro M col h
    by_cases hM : M ≤ 0
    · have h0 : M.toNat = 0 := by omega
      simp [walkTopJ, hM, h0]
    · have hM' : 0 < M := by omega
      obtain ⟨f, hf⟩ := Option.isSome_iff_exists.mp (h c (List.mem_cons_self c t))
      have hw := walkJ_plain maxD hD c f hf M hM' col
      have hIH := ih (M - 1) (col ++ [mkItemS f []])
        (fun x hx => h x (List.mem_cons_of_mem c hx))
      have hk : M.toNat = (M - 1).toNat + 1 := by omega
      rw [hk]
      simp only [walkTopJ, if_neg hM, hw, List.take_succ_cons, List.filterMap_cons, hf,
        Option.map_some, hIH]
      refine Prod.ext ?_ ?_
      · simp only [List.length_cons]
        omega
      · simp

/-- Claim C4: on a listing of `N` replyless top-level comments with
`max_count = M < N`, both `extract_comments` implementations return
exactly `min(N, M)` comment nodes — the first `M` children in source
order — because the single budget is shared across the walk and checked
before every conversion. -/
theorem extract_budget_cap (children : List RNode) (maxD M : Int)
    (hD : 1 ≤ maxD) (hM : 0 ≤ M) (hMN : M < (children.length : Int))
    (h : ∀ c ∈ children, (plainItemOf c).isSome) :
    extract_comments_s (.rListing children) maxD M =
      (children.take M.toNat).filterMap
        (fun c => (plainItemOf c).map (fun f => mkItemS f [])) ∧
    extract_comments_j (.rListing children) maxD M =
      (children.take M.toNat).filterMap
        (fun c => (plainItemOf c).map (fun f => mkItemS f [])) ∧
    (extract_comments_s (.rListing children) maxD M).length =
      min children.length M.toNat ∧
    (extract_comments_j (.rListing children) maxD M).length =
      min children.length M.toNat := by
  have hlenTake : ((children.take M.toNat).filterMap
      (fun c => (plainItemOf c).map (fun f => mkItemS f []))).length =
      min children.length M.toNat := by
    rw [length_filterMap_isSome _ _
      (fun c hc => by
        obtain ⟨f, hf⟩ := Option.isSome_iff_exists.mp (h c (List.mem_of_mem_take hc))
        simp [hf])]
    rw [List.length_take]
    omega
  by_cases hM0 : M ≤ 0
  · have h0 : M = 0 := by omega
    subst h0
    refine ⟨?_, ?_, ?_, ?_⟩ <;>
      simp [extract_comments_s, extract_comments_j, walkS, walkJ]
  · have hg : ¬(M ≤ 0 ∨ (1 : Int) > maxD) := by omega
    have hS : extract_comments_s (.rListing children) maxD M =
        (children.take M.toNat).filterMap
          (fun c => (plainItemOf c).map (fun f => mkItemS f [])) := by
      simp [extract_comments_s, walkS, hg, walkTopS_plain maxD hD children M [] h]
    have hJ : extract_comments_j (.rListing children) maxD M =
        (children.take M.toNat).filterMap
          (fun c => (plainItemOf c).map (fun f => mkItemS f [])) := by
      simp [extract_comments_j, walkJ, hg, walkTopJ_plain maxD hD children M [] h]
    exact ⟨hS, hJ, by rw [hS, hlenTake], by rw [hJ, hlenTake]⟩

/-- Witness for C4: three replyless comments, budget 2 — both
normalizers return the first two, length `min 3 2 = 2`. -/
theorem extract_budget_cap_witness :
    extract_comments_s (.rListing flatChildren) 2 2 =
      [mkItemS fAlice [], mkItemS fEmpty []] ∧
    extract_comments_j (.rListing flatChildren) 2 2 =
      [mkItemS fAlice [], mkItemS fEmpty []] ∧
    (extract_comments_s (.rListing flatChildren) 2 2).length = 2 :=
  ⟨by
    rw [(extract_budget_cap flatChildren 2 2 (by decide) (by decide) (by decide)
      (by decide)).1]
    rfl,
   by
    rw [(extract_budget_cap flatChildren 2 2 (by decide) (by decide) (by decide)
      (by decide)).2.1]
    rfl,
   by
    rw [(extract_budget_cap flatChildren 2 2 (by decide) (by decide) (by decide)
      (by decide)).2.2.1]
    decide⟩

/-- Claim C8 (amended): with retries remaining, a 429/5xx response makes
script.py's fetcher sleep exactly the parsed `Retry-After` value (10 s
when the header does not parse, and the exponential value plus jitter
only when the header is absent), while jsonDownloader's fetcher adds the
jitter on top of a parsed header value and falls back to the plain
exponential value (not 10 s) on a parse failure. -/
theorem rwb_retry_sleep (stream : Nat → Outcome) (jitter : Nat → ℚ)
    (mr fuel attempt : Nat) (s : Int) (ra : Option (Option ℚ)) (b : MPD)
    (hs : stream attempt = .response s ra b)
    (hretry : s = 429 ∨ (500 ≤ s ∧ s < 600))
    (hbudget : attempt < mr) :
    (rwbSGo stream jitter mr (fuel + 1) attempt).2 =
      (match ra with
       | some (some q) => q
       | some none => (10 : ℚ)
       | none => min 60 ((2 : ℚ) ^ attempt) + jitter attempt) ::
      (rwbSGo stream jitter mr fuel (attempt + 1)).2 ∧
    (rwbJGo stream jitter mr (fuel + 1) attempt).2 =
      ((match ra with
        | some (some q) => q
        | some none => min 60 ((2 : ℚ) ^ attempt)
        | none => min 60 ((2 : ℚ) ^ attempt)) + jitter attempt) ::
      (rwbJGo stream jitter mr fuel (attempt + 1)).2 := by
  have hnb : ¬ mr ≤ attempt := by omega
  constructor
  · simp only [rwbSGo, hs]
    rw [if_pos hretry, if_neg hnb]
    rcases ra with _ | (_ | q) <;> rfl
  · simp only [rwbJGo, hs]
    rw [if_pos hretry, if_neg hnb]
    rcases ra with _ | (_ | q) <;> rfl

/-- Witness for C8 at a 429 whose header parses to 10 s, with jitter
fixed at 0 for script.py and 1/2 for jsonDownloader. -/
theorem rwb_retry_sleep_witness :
    stream429 0 = .response 429 (some (some 10)) mpdEmpty ∧ (0 : Nat) < 5 ∧
    (rwbSGo stream429 jitter0 5 (4 + 1) 0).2 = 10 :: (rwbSGo stream429 jitter0 5 4 1).2 ∧
    (rwbJGo stream429 jitterHalf 5 (4 + 1) 0).2 =
      (10 + jitterHalf 0) :: (rwbJGo stream429 jitterHalf 5 4 1).2 :=
  ⟨rfl, by decide,
   (rwb_retry_sleep stream429 jitter0 5 4 0 429 (some (some 10)) mpdEmpty rfl
     (Or.inl rfl) (by decide)).1,
   (rwb_retry_sleep stream429 jitterHalf 5 4 0 429 (some (some 10)) mpdEmpty rfl
     (Or.inl rfl) (by decide)).2⟩

/-- Counterexample for C8 as stated: on a 429 carrying `Retry-After: 10`,
jsonDownloader's `request_with_backoff` sleeps `10 + jitter`, not the
header value 10 — the header does not override the jitter there. -/
theorem rwb_retry_after_cex :
    (request_with_backoff_s stream429 jitterHalf 5).2 = [10] ∧
    (request_with_backoff_j stream429 jitterHalf 5).2 = [10 + 1 / 2] ∧
    ¬((10 : ℚ) + 1 / 2 = 10) := by
  refine ⟨by decide, ?_, by norm_num⟩
  show (rwbJGo stream429 jitterHalf 5 (4 + 1) 0).2 = [10 + 1 / 2]
  have h0 : stream429 0 = .response 429 (some (some 10)) mpdEmpty := rfl
  simp only [rwbJGo, h0]
  norm_num [jitterHalf]

/-- The entry guard of script.py's walker, spelled out. -/
theorem walkS_guard (maxD : Int) (n : RNode) (depth rem : Int) (col : List Item)
    (h : rem ≤ 0 ∨ depth > maxD) : walkS maxD n depth rem col = (none, rem, col) := by
  unfold walkS
  rw [if_pos h]

/-- The entry guard of jsonDownloader.py's walker. -/
theorem walkJ_guard (maxD : Int) (n : RNode) (depth rem : Int) (col : List Item)
    (h : rem ≤ 0 ∨ depth > maxD) : walkJ maxD n depth rem col = (none, rem, col) := by
  unfold walkJ
  rw [if_pos h]

/-- script.py's replies loop at an out-of-bounds depth is a no-op. -/
theorem walkRepS_prune (maxD depth : Int) (hd : maxD < depth) :
    ∀ (cs : List RNode) (rem : Int) (col : List Item),
      walkRepS maxD cs depth rem col = ([], rem, col) := by
  intro cs
  induction cs with
  | nil => intro rem col; simp [walkRepS]
  | cons c t ih =>
    intro rem col
    by_cases hr : rem ≤ 0
    · simp [walkRepS, hr]
    · simp [walkRepS, hr, walkS_guard maxD c depth rem col (Or.inr hd), ih]

/-- jsonDownloader.py's replies loop at an out-of-bounds depth is a
no-op. -/
theorem walkRepJ_prune (maxD depth : Int) (hd : maxD < depth) :
    ∀ (cs : List RNode) (rem : Int) (col : List Item),
      walkRepJ maxD cs depth rem col = ([], rem, col) := by
  intro cs
  induction cs with
  | nil => intro rem col; simp [walkRepJ]
  | cons c t ih =>
    intro rem col
    by_cases hr : rem ≤ 0
    · simp [walkRepJ, hr]
    · cases c with
      | nonDict => simp [walkRepJ, hr, ih]
      | t1NoRep f b => simp [walkRepJ, hr, walkJ_guard maxD _ depth rem col (Or.inr hd), ih]
      | t1Rep f cs2 => simp [walkRepJ, hr, walkJ_guard maxD _ depth rem col (Or.inr hd), ih]
      | rListing cs2 => simp [walkRepJ, hr, walkJ_guard maxD _ depth rem col (Or.inr hd), ih]
      | otherKind => simp [walkRepJ, hr, walkJ_guard maxD _ depth rem col (Or.inr hd), ih]

/-!
With `max_depth = 1` no nested comment is ever converted, and the two
walkers agree: `walkJ` returns the same item and budget as `walkS`, with
`collected` differing only by the self-appended item that `walkS`'s
`Listing` loop appends instead.
-/
mutual
theorem walkJ_eq_walkS (n : RNode) : ∀ (rem : Int) (col : List Item),
    walkJ 1 n 1 rem col =
      ((walkS 1 n 1 rem col).1, (walkS 1 n 1 rem col).2.1,
       (walkS 1 n 1 rem col).2.2 ++ optList (walkS 1 n 1 rem col).1) := by
  intro rem col
  by_cases hr : rem ≤ 0
  · have hg : rem ≤ 0 ∨ (1 : Int) > 1 := Or.inl hr
    simp [walkS_guard 1 n 1 rem col hg, walkJ_guard 1 n 1 rem col hg, optList]
  · have hg : ¬(rem ≤ 0 ∨ (1 : Int) > 1) := by omega
    cases n with
    | nonDict => simp [walkS, walkJ, hg, hr, optList]
    | t1NoRep f b => simp [walkS, walkJ, hg, hr, optList, mkItem_eq]
    | t1Rep f cs =>
      simp [walkS, walkJ, hg, hr, optList, mkItem_eq,
        walkRepS_prune 1 2 (by omega) cs (rem - 1) col,
        walkRepJ_prune 1 2 (by omega) cs (rem - 1) col]
    | rListing cs =>
      simp [walkS, walkJ, hg, hr, optList, walkTopJ_eq_walkTopS cs rem col]
    | otherKind => simp [walkS, walkJ, hg, hr, optList]

theorem walkTopJ_eq_walkTopS (l : List RNode) : ∀ (rem : Int) (col : List Item),
    walkTopJ 1 l 1 rem col = walkTopS 1 l 1 rem col := by
  intro rem col
  match l with
  | [] => simp [walkTopS, walkTopJ]
  | c :: t =>
    by_cases hr : rem ≤ 0
    · simp [walkTopS, walkTopJ, hr]
    · simp only [walkTopS, walkTopJ, if_neg hr, walkJ_eq_walkS c rem col]
      rcases h1 : (walkS 1 c 1 rem col).1 with _ | it <;>
        simp [optList, h1] <;>
        exact walkTopJ_eq_walkTopS t _ _
end

/-- Claim C10 (amended): the two comment normalizers agree on listings
whenever no nested comment is converted, e.g. for every listing at
`max_depth = 1` — then both return, in source order, the same items with
the same fields and empty `replies`.  (With nesting they disagree: see
the counterexample, jsonDownloader.py flattens every converted comment
into the top-level list as well.) -/
theorem extract_comments_depth1_agree (children : List RNode) (M : Int) :
    extract_comments_s (.rListing children) 1 M =
      extract_comments_j (.rListing children) 1 M := by
  unfold extract_comments_s extract_comments_j
  by_cases hM : M ≤ 0
  · simp [walkS_guard 1 _ 1 M [] (Or.inl hM), walkJ_guard 1 _ 1 M [] (Or.inl hM)]
  · have hg : ¬(M ≤ 0 ∨ (1 : Int) > 1) := by omega
    simp [walkS, walkJ, hg, hM, walkTopJ_eq_walkTopS children M []]

/-- Counterexample for C10 as stated: on a listing whose single top-level
comment has one reply (depth 2, ample budget), script.py returns one
node with the reply nested, jsonDownloader.py returns two nodes — the
reply is both nested and appended to the top-level list. -/
theorem extract_comments_nested_disagree :
    extract_comments_s nestedRoot 2 10 ≠ extract_comments_j nestedRoot 2 10 ∧
    (extract_comments_s nestedRoot 2 10).length = 1 ∧
    (extract_comments_j nestedRoot 2 10).length = 2 := by
  refine ⟨fun h => ?_, by decide, by decide⟩
  have hlen := congrArg List.length h
  revert hlen
  decide

/-- The selection result never reports a negative best bandwidth. -/
theorem selectFirstMax_nonneg : ∀ l : List (Int × String), 0 ≤ (selectFirstMax l).1 := by
  intro l
  induction l with
  | nil => simp [selectFirstMax]
  | cons p t ih =>
    rcases p with ⟨bw, u⟩
    simp only [selectFirstMax]
    by_cases h : bw ≥ (selectFirstMax t).1 ∧ bw > 0
    · simp only [if_pos h]
      omega
    · simp only [if_neg h]
      exact ih

/-- A non-positive best bandwidth means nothing was selected. -/
theorem selectFirstMax_nonpos : ∀ l : List (Int × String),
    (selectFirstMax l).1 ≤ 0 → selectFirstMax l = (0, none) := by
  intro l
  induction l with
  | nil => intro _; rfl
  | cons p t ih =>
    rcases p with ⟨bw, u⟩
    simp only [selectFirstMax]
    by_cases h : bw ≥ (selectFirstMax t).1 ∧ bw > 0
    · simp only [if_pos h]
      intro h0
      exact absurd h0 (by omega)
    · simp only [if_neg h]
      exact ih

/-- The left fold of the strict-`>` running best equals the first-seen
maximum selection, merged against the accumulator. -/
theorem foldl_bestStep_eq : ∀ (l : List (Int × String)) (st : Int × Option String),
    0 ≤ st.1 →
    l.foldl bestStep st =
      if (selectFirstMax l).1 > st.1 then selectFirstMax l else st := by
  intro l
  induction l with
  | nil =>
    intro st h
    have : ¬((selectFirstMax ([] : List (Int × String))).1 > st.1) := by
      simp [selectFirstMax]
      omega
    simp [this]
  | cons p t ih =>
    intro st h
    rcases p with ⟨bw, u⟩
    rw [List.foldl_cons]
    have hstep : 0 ≤ (bestStep st (bw, u)).1 := by
      unfold bestStep
      by_cases hb : bw > st.1
      · simp only [if_pos hb]
        omega
      · simp only [if_neg hb]
        omega
    rw [ih _ hstep]
    rcases hS : selectFirstMax t with ⟨m, mu⟩
    have hm : 0 ≤ m := by
      have := selectFirstMax_nonneg t
      rw [hS] at this
      exact this
    simp only [selectFirstMax, hS, bestStep]
    split_ifs <;> first | rfl | omega

/-- From the actual initial accumulator `(0, None)`, the fold is exactly
the first-seen-maximum selection. -/
theorem foldl_bestStep_zero (l : List (Int × String)) :
    l.foldl bestStep (0, none) = selectFirstMax l := by
  rw [foldl_bestStep_eq l (0, none) (le_refl 0)]
  by_cases h : (selectFirstMax l).1 > 0
  · simp [h]
  · simp [h, selectFirstMax_nonpos l (by omega)]

/-- No MIME type starts with both `video/` and `audio/`. -/
theorem not_video_and_audio (s : String) :
    ¬(strStarts s "video/" = true ∧ strStarts s "audio/" = true) := by
  rintro ⟨h1, h2⟩
  unfold strStarts at h1 h2
  have hv : "video/".data = ['v', 'i', 'd', 'e', 'o', '/'] := rfl
  have ha : "audio/".data = ['a', 'u', 'd', 'i', 'o', '/'] := rfl
  rw [hv] at h1
  rw [ha] at h2
  cases hd : s.data with
  | nil =>
    rw [hd] at h1
    simp [listStarts] at h1
  | cons c cs =>
    rw [hd] at h1 h2
    simp [listStarts] at h1 h2
    rw [h1.1] at h2
    exact absurd h2.1 (by decide)

/-- One pass of the double loop, flattened to `(mimeType,
representation)` pairs, updates the video-best and audio-best folds
independently. -/
theorem foldl_pickStep_split (join : String → String → String) (base : String) :
    ∀ (pairs : List (String × RepElem))
      (st : (Int × Option String) × (Int × Option String)),
      pairs.foldl (fun st p => pickStep join base p.1 st p.2) st =
        ((pairs.filterMap (vCandOf join base)).foldl bestStep st.1,
         (pairs.filterMap (aCandOf join base)).foldl bestStep st.2) := by
  intro pairs
  induction pairs with
  | nil => intro st; simp
  | cons p t ih =>
    intro st
    rcases p with ⟨mime, rep⟩
    rw [List.foldl_cons, ih]
    rcases hurl : rep.baseURL with _ | u0
    · simp [pickStep, vCandOf, aCandOf, hurl]
    · by_cases hv : strStarts mime "video/" = true
      · have hna : ¬(strStarts mime "audio/" = true) := fun ha =>
          not_video_and_audio mime ⟨hv, ha⟩
        by_cases hbw : rep.bandwidth > st.1.1
        · simp [pickStep, vCandOf, aCandOf, hurl, hv, hbw, hna, bestStep]
        · simp [pickStep, vCandOf, aCandOf, hurl, hv, hbw, hna, bestStep]
      · by_cases ha : strStarts mime "audio/" = true
        · by_cases hbw : rep.bandwidth > st.2.1
          · simp [pickStep, vCandOf, aCandOf, hurl, hv, ha, hbw, bestStep]
          · simp [pickStep, vCandOf, aCandOf, hurl, hv, ha, hbw, bestStep]
        · simp [pickStep, vCandOf, aCandOf, hurl, hv, ha]

/-- The nested set/representation loops equal one loop over the
flattened pair list. -/
theorem pick_fold_pairs (join : String → String → String) (base : String) :
    ∀ (sets : List AdaptationSet)
      (st : (Int × Option String) × (Int × Option String)),
      sets.foldl
        (fun st aset => aset.representations.foldl (pickStep join base aset.mimeType) st)
        st =
      (sets.foldr (fun aset acc => aset.representations.map (fun r => (aset.mimeType, r)) ++ acc)
        []).foldl (fun st p => pickStep join base p.1 st p.2) st := by
  intro sets
  induction sets with
  | nil => intro st; rfl
  | cons a t ih =>
    intro st
    simp only [List.foldl_cons, List.foldr_cons, List.foldl_append, List.foldl_map]
    rw [ih]

/-- Lemma: `videoCands` is the video-side projection of the flattened pairs. -/
theorem videoCands_pairs (join : String → String → String) (m : MPD) :
    videoCands join m = (mpdPairs m).filterMap (vCandOf join m.baseURL) := by
  unfold videoCands mpdPairs
  induction m.sets with
  | nil => rfl
  | cons a t ih =>
    simp only [List.foldr_cons, List.filterMap_append, List.filterMap_map]
    rw [ih]
    by_cases hv : strStarts a.mimeType "video/" = true
    · simp only [if_pos hv]
      congr 1
      refine (List.filterMap_congr fun r _ => ?_).symm
      simp [vCandOf, hv, Function.comp]
    · simp only [if_neg hv]
      congr 1
      simp [vCandOf, hv, Function.comp]

/-- Lemma: `audioCands` is the audio-side projection of the flattened pairs. -/
theorem audioCands_pairs (join : String → String → String) (m : MPD) :
    audioCands join m = (mpdPairs m).filterMap (aCandOf join m.baseURL) := by
  unfold audioCands mpdPairs
  induction m.sets with
  | nil => rfl
  | cons a t ih =>
    simp only [List.foldr_cons, List.filterMap_append, List.filterMap_map]
    rw [ih]
    by_cases ha : (¬strStarts a.mimeType "video/" = true ∧ strStarts a.mimeType "audio/" = true)
    · simp only [if_pos ha]
      congr 1
      refine (List.filterMap_congr fun r _ => ?_).symm
      simp [aCandOf, ha.1, ha.2, Function.comp]
    · simp only [if_neg ha]
      congr 1
      refine Eq.symm ?_
      simp [aCandOf, Function.comp]
      intro r _ hv2 ha2
      exact absurd ⟨by simp [hv2], ha2⟩ ha

/-- Claim C7 (amended): per MIME category, `pick_best_from_mpd` returns
the URL of the first representation (in document order) attaining the
maximum declared bandwidth among the category's representations that
carry a `BaseURL` — ties keep the first seen — provided that maximum is
strictly positive; when every such bandwidth is ≤ 0 (e.g. the attribute
was absent, defaulted to "0"), nothing is selected even if a
representation exists. -/
theorem pick_best_first_max (join : String → String → String) (m : MPD) :
    pick_best_from_mpd join m =
      ((selectFirstMax (videoCands join m)).2, (selectFirstMax (audioCands join m)).2) := by
  simp only [pick_best_from_mpd]
  rw [pick_fold_pairs join m.baseURL m.sets ((0, none), (0, none))]
  rw [show (m.sets.foldr
      (fun aset acc => aset.representations.map (fun r => (aset.mimeType, r)) ++ acc) [])
      = mpdPairs m from rfl]
  rw [foldl_pickStep_split join m.baseURL (mpdPairs m) ((0, none), (0, none))]
  rw [← videoCands_pairs, ← audioCands_pairs]
  rw [foldl_bestStep_zero, foldl_bestStep_zero]

/-- Counterexample for C7 as stated: a manifest whose only video
representation declares bandwidth 0 and carries a URL — the unique
maximal-bandwidth representation of its category — yet nothing is
selected, because the running best starts at `(0, None)` and only a
strictly greater bandwidth replaces it. -/
theorem pick_best_zero_band_cex :
    videoCands joinId mpdZeroBand = [(0, "https://v.redd.it/x/DASH_720.mp4")] ∧
    pick_best_from_mpd joinId mpdZeroBand = (none, none) := by
  exact ⟨by decide, by decide⟩

/-- Claim C1 (amended): when `download_video` can resolve neither a DASH
manifest URL (from the payload's `dash_url` or synthesized from a
`v.redd.it` post URL) nor a fallback URL, it does not fail — it performs
no download and returns the kind-"video" media dict with an empty file
list and `merged` left unset. -/
theorem download_video_no_source (env : DVEnv) (post : Post) (base_dir : String)
    (mr : Nat)
    (hdash : ((findRV post).bind RedditVideo.dash_url).getD "" = "")
    (hurl : strContains (pyOr post.url_overridden_by_dest (post.url.getD ""))
      "v.redd.it" = false)
    (hfall : ((findRV post).bind RedditVideo.fallback_url).getD "" = "") :
    download_video env post base_dir mr = .ok ⟨"video", [], none⟩ := by
  simp only [download_video, hdash, hurl, hfall]
  simp [fallbackStep]

/-- Witness for C1's amended claim at a concrete post with no
`reddit_video` payload, no `v.redd.it` URL and no fallback. -/
theorem download_video_no_source_witness :
    (((findRV postBare).bind RedditVideo.dash_url).getD "" = "") ∧
    download_video envIdle postBare "out" 3 = .ok ⟨"video", [], none⟩ :=
  ⟨rfl, download_video_no_source envIdle postBare "out" 3 rfl (by decide) rfl⟩

/-- Counterexample for C1 as stated: with nothing resolvable the
acquisition does not fail — `download_video` returns a kind-"video"
MediaResult whose `merged` field is unset (script.py line 239 returns the
untouched `media` dict). -/
theorem download_video_no_source_cex :
    download_video envIdle postBare "media" 5 = .ok ⟨"video", [], none⟩ := rfl

/-- Claim C2, evaluated at the failing input: when the secure manifest
fetch yields HTTP 403, `request_with_backoff` raises the HTTP error in
its 4xx branch before `download_video`'s `r.status_code == 403` check
(script.py line 210) can run, so no plaintext-HTTP refetch happens and
the 403 surfaces as an error.  The plaintext URL's behaviour `g` is
universally quantified: the result does not depend on it, i.e. that URL
is never consulted. -/
theorem download_video_403_no_retry (g : String → Nat → Outcome) :
    download_video (env403 g) post403 "media" 5 = .error (.http 403) := rfl
